import Mathlib

/-!
Verification development for the 360° panorama stitching service.

The program consists of an HTTP service (`Python/app.py`) and a standalone
batch tool (`Python/stitch_images.py`).  Both share three stages:
loading images from a folder (`load_images_from_folder`), invoking the
external stitching engine with a mode policy (`stitch_images`), and the
equirectangular projection (`pano_to_equirectangular`).  The definitions
below are a shallow embedding of those functions; machine floating point
is modelled by real numbers, the external engine and codec by explicit
parameters, and raised exceptions by `Except`.
-/

namespace PanoStitch

/-- A decoded image: `width × height × 3` samples, modelled as a
function from (row, column, channel) to a real-valued sample.
Mirrors the numpy arrays produced by `cv2.imdecode` / `cv2.imread`. -/
structure PixelBuffer where
  width : ℕ
  height : ℕ
  pix : ℕ → ℕ → Fin 3 → ℝ

/-- Code-point lexicographic comparison of character lists; this is the
order Python's `sorted` uses on strings (and on `Path` objects within a
single directory). -/
def lexLe : List Char → List Char → Bool
  | [], _ => true
  | _ :: _, [] => false
  | a :: as, b :: bs =>
    if a.toNat < b.toNat then true
    else if b.toNat < a.toNat then false
    else lexLe as bs

/-- Lexicographic comparison of strings by code points. -/
def strLe (a b : String) : Bool := lexLe a.toList b.toList

/-- One entry of the input directory, as seen by `folder.iterdir()`:
its filename, whether it is a regular file (`f.is_file()`), and the
result of decoding it with `cv2.imread` (`none` when imread fails,
i.e. returns None). -/
structure DirEntry where
  name : String
  isFile : Bool
  decoded : Option PixelBuffer

/-- Ordering of directory entries by filename, as used by `sorted(...)`
in `load_images_from_folder`. -/
def entryLe (a b : DirEntry) : Prop := strLe a.name b.name = true

instance : DecidableRel entryLe := fun a b => by unfold entryLe; infer_instance

/-- Index of the last occurrence of a character in a list, if any. -/
def lastIdxOf (c : Char) : List Char → Option ℕ
  | [] => none
  | a :: rest =>
    match lastIdxOf c rest with
    | some i => some (i + 1)
    | none => if a = c then some 0 else none

/-- Python's `pathlib.PurePath.suffix` on a filename: the substring from
the last dot on, provided that dot is neither the first nor the last
character; otherwise the empty string. -/
def pathSuffix (name : String) : String :=
  let cs := name.toList
  match lastIdxOf '.' cs with
  | none => ""
  | some i => if 0 < i ∧ i < cs.length - 1 then String.mk (List.drop i cs) else ""

/-- The allow-set of the source:
`image_extensions = {'.jpg', '.jpeg', '.png', '.JPG', '.JPEG', '.PNG'}`.
Membership in a Python set of strings is exact-case string equality. -/
def image_extensions : List String :=
  [".jpg", ".jpeg", ".png", ".JPG", ".JPEG", ".PNG"]

/-- The selection predicate of the directory scan:
`f.is_file() and f.suffix in image_extensions`. -/
def matchesImageExt (f : DirEntry) : Bool :=
  f.isFile && image_extensions.contains (pathSuffix f.name)

/-- `image_files = sorted([f for f in folder.iterdir() if f.is_file() and
f.suffix in image_extensions])`.  `List.insertionSort` is a stable sort,
as Python's `sorted` is; with the total preorder `entryLe` both produce
the same list. -/
def image_files (entries : List DirEntry) : List DirEntry :=
  List.insertionSort entryLe (entries.filter matchesImageExt)

/-- The three `ValueError`s `load_images_from_folder` can raise,
distinguished by raise site; the first is the spec's `DirectoryNotFound`,
the latter two are both the spec's `InsufficientImages`. -/
inductive LoadError
  | directoryNotFound (folder_path : String)
  | insufficientFiles (found : ℕ)
  | insufficientLoaded (loaded : ℕ)
deriving DecidableEq

/-- `load_images_from_folder` of both source files (the two copies are
identical up to progress printing).  The filesystem is passed in as a
map from a path to the directory listing (`none` when
`not folder.exists()`). -/
def load_images_from_folder (fsys : String → Option (List DirEntry))
    (folder_path : String) : Except LoadError (List PixelBuffer) :=
  match fsys folder_path with
  | none => .error (.directoryNotFound folder_path)
  | some entries =>
    let files := image_files entries
    if files.length < 2 then .error (.insufficientFiles files.length)
    else
      let images := files.filterMap (fun f => f.decoded)
      if images.length < 2 then .error (.insufficientLoaded images.length)
      else .ok images

/-- The message carried by each `ValueError` (what `str(e)` yields when
the pipeline driver catches it). -/
def loadErrorMessage : LoadError → String
  | .directoryNotFound folder_path => s!"Folder {folder_path} does not exist"
  | .insufficientFiles found => s!"Need at least 2 images, found {found}"
  | .insufficientLoaded loaded =>
      s!"Successfully loaded only {loaded} images, need at least 2"

/-- `cv2.Stitcher_SCANS` / `cv2.Stitcher_PANORAMA`. -/
inductive StitchMode
  | SCANS
  | PANORAMA
deriving DecidableEq

/-- The external stitching engine (OpenCV), as observed by this program:
whether the constant `cv2.Stitcher_SCANS` exists in the running build
(the `try`/`except` around `Stitcher_create(cv2.Stitcher_SCANS)`),
whether `hasattr(cv2, 'Stitcher_PANORAMA')`, and for each mode the pair
`status, pano = Stitcher_create(mode).stitch(images)`.
Status `0` is `cv2.Stitcher_OK`. -/
structure Engine where
  scansAvailable : Bool
  hasPanorama : Bool
  run : StitchMode → List PixelBuffer → ℕ × PixelBuffer

/-- The message of `app.py`'s
`RuntimeError(f"Stitching failed with status {status}")`. -/
def statusMessage (status : ℕ) : String :=
  s!"Stitching failed with status {status}"

/-- The message of `stitch_images.py`'s
`error_codes.get(status, f"Stitching failed with status code: {status}")`. -/
def stitchErrorMessage (status : ℕ) : String :=
  if status = 1 then "Need more images or insufficient overlap"
  else if status = 2 then
    "Homography estimation failed - images may not have enough matching features"
  else if status = 3 then "Camera parameter adjustment failed"
  else s!"Stitching failed with status code: {status}"

/-- `stitch_images` of `app.py`: one PANORAMA attempt, raise on failure.
The second component records which engine modes were invoked, in order,
so that the retry policy can be stated. -/
def stitch_images_app (e : Engine) (images : List PixelBuffer) :
    Except String PixelBuffer × List StitchMode :=
  let r := e.run StitchMode.PANORAMA images
  if r.1 = 0 then (Except.ok r.2, [StitchMode.PANORAMA])
  else (Except.error (statusMessage r.1), [StitchMode.PANORAMA])

/-- `stitch_images` of `stitch_images.py`: build a SCANS stitcher when
that constant exists (else fall back to a PANORAMA stitcher already for
the first attempt), and on a failed first attempt retry once with a
PANORAMA stitcher when `hasattr(cv2, 'Stitcher_PANORAMA')`; classify the
final status through `error_codes`.  The second component records the
engine invocations in order. -/
def stitch_images_batch (e : Engine) (images : List PixelBuffer) :
    Except String PixelBuffer × List StitchMode :=
  let mode1 := if e.scansAvailable then StitchMode.SCANS else StitchMode.PANORAMA
  let r1 := e.run mode1 images
  if r1.1 = 0 then (Except.ok r1.2, [mode1])
  else if e.hasPanorama then
    let r2 := e.run StitchMode.PANORAMA images
    if r2.1 = 0 then (Except.ok r2.2, [mode1, StitchMode.PANORAMA])
    else (Except.error (stitchErrorMessage r2.1), [mode1, StitchMode.PANORAMA])
  else (Except.error (stitchErrorMessage r1.1), [mode1])

/-- The spec's classification of engine status codes (§4.2, §7). -/
inductive StitchErrorKind
  | insufficientOverlap
  | homographyEstimationFailed
  | cameraParameterAdjustmentFailed
  | unknownEngineFailure (code : ℕ)
deriving DecidableEq

/-- Modelled from the spec: status 1 ↦ InsufficientOverlap, 2 ↦
HomographyEstimationFailed, 3 ↦ CameraParameterAdjustmentFailed, any
other status ↦ UnknownEngineFailure(code). -/
def specClassify (status : ℕ) : StitchErrorKind :=
  if status = 1 then .insufficientOverlap
  else if status = 2 then .homographyEstimationFailed
  else if status = 3 then .cameraParameterAdjustmentFailed
  else .unknownEngineFailure status

/-- The diagnostic message the batch tool associates with each error
kind (the `error_codes` table of `stitch_images.py`). -/
def kindMessage : StitchErrorKind → String
  | .insufficientOverlap => "Need more images or insufficient overlap"
  | .homographyEstimationFailed =>
      "Homography estimation failed - images may not have enough matching features"
  | .cameraParameterAdjustmentFailed => "Camera parameter adjustment failed"
  | .unknownEngineFailure code => s!"Stitching failed with status code: {code}"

/-- `theta = (y / output_h - 0.5) * np.pi`. -/
noncomputable def theta (output_h y : ℕ) : ℝ :=
  ((y : ℝ) / output_h - 0.5) * Real.pi

/-- `phi = (x / output_w - 0.5) * 2 * np.pi`. -/
noncomputable def phi (output_w x : ℕ) : ℝ :=
  ((x : ℝ) / output_w - 0.5) * 2 * Real.pi

/-- `xs = 0.5 * w * (phi / np.pi + 1)` with `w` the panorama width. -/
noncomputable def xsrc (w output_w x : ℕ) : ℝ :=
  0.5 * w * (phi output_w x / Real.pi + 1)

/-- `ys = 0.5 * h * (theta / (np.pi / 2) + 1)` with `h` the panorama height. -/
noncomputable def ysrc (h output_h y : ℕ) : ℝ :=
  0.5 * h * (theta output_h y / (Real.pi / 2) + 1)

/-- The spec's `x_src` formula of §4.3, transcribed from the spec text:
`x_src = 0.5 * pano_width * (phi / π + 1)` with
`phi = (x / output_width − 0.5) * 2π`. -/
noncomputable def spec_x_src (pano_width output_width x : ℕ) : ℝ :=
  0.5 * pano_width * ((((x : ℝ) / output_width - 0.5) * (2 * Real.pi)) / Real.pi + 1)

/-- The spec's `y_src` formula of §4.3, transcribed from the spec text:
`y_src = 0.5 * pano_height * (theta / (π/2) + 1)` with
`theta = (y / output_height − 0.5) * π`. -/
noncomputable def spec_y_src (pano_height output_height y : ℕ) : ℝ :=
  0.5 * pano_height * ((((y : ℝ) / output_height - 0.5) * Real.pi) / (Real.pi / 2) + 1)

/-- The two parallel coordinate arrays `x_map`, `y_map` of shape
`(output_h, output_w)`, viewed as entry functions (row, column) ↦ value
together with their dimensions. -/
structure CoordinateMap where
  height : ℕ
  width : ℕ
  x_map : ℕ → ℕ → ℝ
  y_map : ℕ → ℕ → ℝ

/-- The nested loop of `pano_to_equirectangular` filling
`x_map[y, x] = xs` and `y_map[y, x] = ys`; the loop body's `xs` uses
only `phi` (hence only `x`) and `ys` only `theta` (hence only `y`). -/
noncomputable def buildCoordinateMap (h w output_w output_h : ℕ) : CoordinateMap :=
  { height := output_h
    width := output_w
    x_map := fun _y x => xsrc w output_w x
    y_map := fun y _x => ysrc h output_h y }

/-- `cv2.BORDER_WRAP` index addressing: out-of-range indices wrap
modulo the axis length. -/
def wrapIdx (i : ℤ) (n : ℕ) : ℕ := (i % (n : ℤ)).toNat

/-- `cv2.INTER_LINEAR` with `cv2.BORDER_WRAP`: bilinear interpolation of
the four neighbours of the (real-valued) source coordinate, indices
wrapped on both axes. -/
noncomputable def bilinearSample (src : PixelBuffer) (sx sy : ℝ) (c : Fin 3) : ℝ :=
  let x0 : ℤ := ⌊sx⌋
  let y0 : ℤ := ⌊sy⌋
  let fx : ℝ := sx - x0
  let fy : ℝ := sy - y0
  (1 - fx) * (1 - fy) * src.pix (wrapIdx y0 src.height) (wrapIdx x0 src.width) c
    + fx * (1 - fy) * src.pix (wrapIdx y0 src.height) (wrapIdx (x0 + 1) src.width) c
    + (1 - fx) * fy * src.pix (wrapIdx (y0 + 1) src.height) (wrapIdx x0 src.width) c
    + fx * fy * src.pix (wrapIdx (y0 + 1) src.height) (wrapIdx (x0 + 1) src.width) c

/-- `cv2.remap(pano, x_map, y_map, INTER_LINEAR, BORDER_WRAP)`: the
output has the maps' shape, and each output pixel samples the source at
the mapped coordinate. -/
noncomputable def remap (src : PixelBuffer) (m : CoordinateMap) : PixelBuffer :=
  { width := m.width
    height := m.height
    pix := fun y x c => bilinearSample src (m.x_map y x) (m.y_map y x) c }

/-- `pano_to_equirectangular` (identical in both source files):
`h, w = pano.shape[:2]`, build the coordinate map, remap. -/
noncomputable def pano_to_equirectangular (pano : PixelBuffer)
    (output_w output_h : ℕ) : PixelBuffer :=
  remap pano (buildCoordinateMap pano.height pano.width output_w output_h)

/-- Encoded image bytes. -/
abbrev Bytes := List ℕ

/-- FastAPI `StreamingResponse` with its media type and
`Content-Disposition` header. -/
structure StreamResponse where
  body : Bytes
  media_type : String
  content_disposition : String

/-- `read_image` of `app.py`: decode one uploaded file, raising
`ValueError("Invalid image file")` when `cv2.imdecode` returns None.
The upload is modelled by its decode result. -/
def read_image (file : Option PixelBuffer) : Except String PixelBuffer :=
  match file with
  | some img => Except.ok img
  | none => Except.error "Invalid image file"

/-- The `try` block of the `/stitch-360` endpoint: decode every upload,
stitch, project to 2048×1024, encode (the codec is passed in as `enc`),
and build the streaming response; the first raising statement aborts the
block with its message. -/
noncomputable def stitch360Body (enc : PixelBuffer → Except String Bytes)
    (e : Engine) (files : List (Option PixelBuffer)) :
    Except String StreamResponse :=
  match files.mapM read_image with
  | .error msg => .error msg
  | .ok cv_images =>
    match (stitch_images_app e cv_images).1 with
    | .error msg => .error msg
    | .ok pano =>
      match enc (pano_to_equirectangular pano 2048 1024) with
      | .error msg => .error msg
      | .ok encoded =>
          .ok { body := encoded
                media_type := "image/jpeg"
                content_disposition := "attachment; filename=360.jpg" }

/-- The `/stitch-360` endpoint: `HTTPException(400)` when fewer than two
files are uploaded, otherwise the `try` block with
`except Exception as e: raise HTTPException(500, str(e))`. -/
noncomputable def stitch_360 (enc : PixelBuffer → Except String Bytes)
    (e : Engine) (files : List (Option PixelBuffer)) :
    Except (ℕ × String) StreamResponse :=
  if files.length < 2 then
    .error (400, "At least two images required")
  else
    match stitch360Body enc e files with
    | .ok r => .ok r
    | .error msg => .error (500, msg)

/-- The `try` block of the `/stitch-from-folder` endpoint: load from the
folder, stitch with `app.py`'s `stitch_images`, project, encode; the
first raising statement aborts the block with its message.  The optional
`cv2.imwrite` persistence side effect is outside the model. -/
noncomputable def stitchFromFolderBody (enc : PixelBuffer → Except String Bytes)
    (e : Engine) (fsys : String → Option (List DirEntry)) (folder_path : String) :
    Except String StreamResponse :=
  match load_images_from_folder fsys folder_path with
  | .error err => .error (loadErrorMessage err)
  | .ok cv_images =>
    match (stitch_images_app e cv_images).1 with
    | .error msg => .error msg
    | .ok pano =>
      match enc (pano_to_equirectangular pano 2048 1024) with
      | .error msg => .error msg
      | .ok encoded =>
          .ok { body := encoded
                media_type := "image/jpeg"
                content_disposition := "attachment; filename=stitched_360.jpg" }

/-- The `/stitch-from-folder` endpoint: the whole body is inside one
`try`, so every failure becomes `HTTPException(500, str(e))`. -/
noncomputable def stitch_from_folder (enc : PixelBuffer → Except String Bytes)
    (e : Engine) (fsys : String → Option (List DirEntry)) (folder_path : String) :
    Except (ℕ × String) StreamResponse :=
  match stitchFromFolderBody enc e fsys folder_path with
  | .ok r => .ok r
  | .error msg => .error (500, msg)

/-- A 1×1 sample image used to instantiate theorems. -/
noncomputable def samplePixelBuffer : PixelBuffer :=
  { width := 1, height := 1, pix := fun _ _ _ => 0 }

/-- An engine build where SCANS succeeds and PANORAMA fails. -/
noncomputable def engineScansOk : Engine :=
  { scansAvailable := true
    hasPanorama := true
    run := fun m _ =>
      match m with
      | StitchMode.SCANS => (0, samplePixelBuffer)
      | StitchMode.PANORAMA => (1, samplePixelBuffer) }

/-- An engine build where SCANS fails and PANORAMA succeeds. -/
noncomputable def engineScansFails : Engine :=
  { scansAvailable := true
    hasPanorama := true
    run := fun m _ =>
      match m with
      | StitchMode.SCANS => (1, samplePixelBuffer)
      | StitchMode.PANORAMA => (0, samplePixelBuffer) }

/-- An engine build where both modes fail with status 1. -/
noncomputable def engineBothFail : Engine :=
  { scansAvailable := true
    hasPanorama := true
    run := fun _ _ => (1, samplePixelBuffer) }

/-- An engine build without the SCANS constant, failing every attempt
with status 1. -/
noncomputable def engineNoScans : Engine :=
  { scansAvailable := false
    hasPanorama := true
    run := fun _ _ => (1, samplePixelBuffer) }

/-- A codec that always encodes successfully. -/
def sampleEncoder : PixelBuffer → Except String Bytes := fun _ => Except.ok []

/-- A codec that always fails. -/
def failEncoder : PixelBuffer → Except String Bytes :=
  fun _ => Except.error "Encoding failed"

/-- A sample directory: two decodable images, one undecodable image,
one non-image file. -/
noncomputable def sampleEntries : List DirEntry :=
  [ { name := "b.png", isFile := true, decoded := some samplePixelBuffer }
  , { name := "a.jpg", isFile := true, decoded := some samplePixelBuffer }
  , { name := "c.jpg", isFile := true, decoded := none }
  , { name := "notes.txt", isFile := true, decoded := none } ]

/-- A filesystem with the sample directory mounted at "Images". -/
noncomputable def sampleFs : String → Option (List DirEntry) :=
  fun p => if p = "Images" then some sampleEntries else none


/-! ## Helper lemmas -/

theorem lexLe_total : ∀ a b, lexLe a b = true ∨ lexLe b a = true := by
  intro a
  induction a with
  | nil => intro b; left; rfl
  | cons x xs ih =>
    intro b
    cases b with
    | nil => right; rfl
    | cons y ys =>
      by_cases h1 : x.toNat < y.toNat
      · left; simp [lexLe, h1]
      · by_cases h2 : y.toNat < x.toNat
        · right; simp [lexLe, h1, h2]
        · rcases ih ys with h | h
          · left; simp [lexLe, h1, h2, h]
          · right; simp [lexLe, h1, h2, h]

theorem lexLe_trans :
    ∀ a b c, lexLe a b = true → lexLe b c = true → lexLe a c = true := by
  intro a
  induction a with
  | nil => intros; rfl
  | cons x xs ih =>
    intro b c hab hbc
    cases b with
    | nil => simp [lexLe] at hab
    | cons y ys =>
      cases c with
      | nil => simp [lexLe] at hbc
      | cons z zs =>
        simp only [lexLe] at hab hbc ⊢
        split_ifs at hab hbc ⊢ <;>
          first
            | rfl
            | omega
            | (exact ih ys zs hab hbc)

theorem xsrc_eq (w W x : ℕ) (hW : W ≠ 0) :
    xsrc w W x = w * x / W := by
  have hW' : (W : ℝ) ≠ 0 := Nat.cast_ne_zero.mpr hW
  unfold xsrc phi
  have hpi := Real.pi_ne_zero
  field_simp
  ring

theorem ysrc_eq (h H y : ℕ) (hH : H ≠ 0) :
    ysrc h H y = h * y / H := by
  have hH' : (H : ℝ) ≠ 0 := Nat.cast_ne_zero.mpr hH
  unfold ysrc theta
  have hpi := Real.pi_ne_zero
  field_simp
  ring

theorem ysrc_bounds (h H y : ℕ) (hh : 0 < h) (hH : 0 < H) (hy : y < H) :
    0 ≤ ysrc h H y ∧ ysrc h H y < h := by
  rw [ysrc_eq h H y hH.ne']
  have hH' : (0 : ℝ) < H := by exact_mod_cast hH
  have hh' : (0 : ℝ) < h := by exact_mod_cast hh
  constructor
  · positivity
  · rw [div_lt_iff₀ hH']
    have hy' : (y : ℝ) < H := by exact_mod_cast hy
    nlinarith

theorem stitchErrorMessage_classified (s : ℕ) :
    stitchErrorMessage s = kindMessage (specClassify s) := by
  unfold stitchErrorMessage specClassify kindMessage
  split_ifs <;> rfl

theorem mapM_loop_read_image_error :
    ∀ (files : List (Option PixelBuffer)) (acc : List PixelBuffer),
      none ∈ files →
      List.mapM.loop read_image files acc = Except.error "Invalid image file" := by
  intro files
  induction files with
  | nil => intro acc h; cases h
  | cons f rest ih =>
    intro acc h
    cases f with
    | none => rfl
    | some img =>
      have hr : none ∈ rest := by
        rcases List.mem_cons.mp h with h1 | h1
        · exact absurd h1 (by simp)
        · exact h1
      exact ih (img :: acc) hr

theorem mapM_read_image_error {files : List (Option PixelBuffer)}
    (h : none ∈ files) :
    files.mapM read_image = Except.error "Invalid image file" :=
  mapM_loop_read_image_error files [] h

theorem mapM_loop_read_image_ok :
    ∀ (files : List (Option PixelBuffer)) (acc : List PixelBuffer),
      none ∉ files →
      List.mapM.loop read_image files acc
        = Except.ok (acc.reverse ++ files.reduceOption) := by
  intro files
  induction files with
  | nil =>
    intro acc _
    show Except.ok acc.reverse = _
    simp [List.reduceOption]
  | cons f rest ih =>
    intro acc h
    cases f with
    | none => exact absurd (List.mem_cons_self none rest) h
    | some img =>
      have hr : none ∉ rest := fun hm => h (List.mem_cons_of_mem _ hm)
      show List.mapM.loop read_image rest (img :: acc) = _
      rw [ih (img :: acc) hr]
      simp

theorem mapM_read_image_ok {files : List (Option PixelBuffer)}
    (h : none ∉ files) :
    files.mapM read_image = Except.ok files.reduceOption := by
  have hl := mapM_loop_read_image_ok files [] h
  simpa [List.mapM] using hl

theorem stitch360Body_of_images (enc : PixelBuffer → Except String Bytes)
    (e : Engine) (files : List (Option PixelBuffer)) (h : none ∉ files) :
    stitch360Body enc e files =
      (match (stitch_images_app e files.reduceOption).1 with
       | .error msg => .error msg
       | .ok pano =>
         match enc (pano_to_equirectangular pano 2048 1024) with
         | .error msg => .error msg
         | .ok encoded =>
             .ok { body := encoded
                   media_type := "image/jpeg"
                   content_disposition := "attachment; filename=360.jpg" }) := by
  unfold stitch360Body
  rw [mapM_read_image_ok h]

theorem matchesImageExt_iff (f : DirEntry) :
    matchesImageExt f = true ↔
      (f.isFile = true ∧ pathSuffix f.name ∈ image_extensions) := by
  simp [matchesImageExt, List.contains_iff_exists_mem_beq, beq_iff_eq]

/-! ## Claims about the equirectangular projector -/

/-- Claim C1: for every panorama size and every valid output
configuration, each coordinate-map entry built by
`pano_to_equirectangular` equals the spec's formula
`x_src = 0.5·pano_width·(phi/π + 1)`, `y_src = 0.5·pano_height·(θ/(π/2) + 1)`
exactly, and both are the uniform linear rescale
`pano_width·x/output_width`, `pano_height·y/output_height`. -/
theorem c1_coordinate_map_follows_spec (pano_h pano_w W H x y : ℕ)
    (hw : 0 < pano_w) (hh : 0 < pano_h) (hW : 0 < W) (hH : 0 < H)
    (hx : x < W) (hy : y < H) :
    (buildCoordinateMap pano_h pano_w W H).x_map y x = spec_x_src pano_w W x
  ∧ (buildCoordinateMap pano_h pano_w W H).y_map y x = spec_y_src pano_h H y
  ∧ (buildCoordinateMap pano_h pano_w W H).x_map y x = pano_w * x / W
  ∧ (buildCoordinateMap pano_h pano_w W H).y_map y x = pano_h * y / H := by
  refine ⟨?_, ?_, ?_, ?_⟩
  · show xsrc pano_w W x = spec_x_src pano_w W x
    unfold xsrc phi spec_x_src
    ring
  · show ysrc pano_h H y = spec_y_src pano_h H y
    unfold ysrc theta spec_y_src
    ring
  · exact xsrc_eq pano_w W x hW.ne'
  · exact ysrc_eq pano_h H y hH.ne'

/-- Closed instance of `c1_coordinate_map_follows_spec` at a concrete
panorama and configuration. -/
theorem c1_witness :
    (buildCoordinateMap 2 4 4 2).x_map 1 3 = spec_x_src 4 4 3
  ∧ (buildCoordinateMap 2 4 4 2).y_map 1 3 = spec_y_src 2 2 1
  ∧ (buildCoordinateMap 2 4 4 2).x_map 1 3 = 3
  ∧ (buildCoordinateMap 2 4 4 2).y_map 1 3 = 1 := by
  have h := c1_coordinate_map_follows_spec 2 4 4 2 3 1 (by norm_num)
    (by norm_num) (by norm_num) (by norm_num) (by norm_num) (by norm_num)
  refine ⟨h.1, h.2.1, ?_, ?_⟩
  · rw [h.2.2.1]; norm_num
  · rw [h.2.2.2]; norm_num

/-- Claim C3 as stated is false: there is no panorama size, valid
configuration and in-range output row whose `y_src` falls outside
`[0, pano_height)`; the map `y_src = pano_height·y/output_height` stays
in range for every aspect ratio. -/
theorem c3_counterexample :
    ¬ ∃ (pano_h pano_w W H x y : ℕ),
        0 < pano_h ∧ 0 < pano_w ∧ 0 < W ∧ 0 < H ∧ x < W ∧ y < H ∧
        ((buildCoordinateMap pano_h pano_w W H).y_map y x < 0 ∨
          (pano_h : ℝ) ≤ (buildCoordinateMap pano_h pano_w W H).y_map y x) := by
  rintro ⟨pano_h, pano_w, W, H, x, y, hh, -, -, hH, -, hy, hbad⟩
  have hb := ysrc_bounds pano_h H y hh hH hy
  rcases hbad with hlt | hge
  · exact absurd hb.1 (not_le.mpr hlt)
  · exact absurd hb.2 (not_lt.mpr hge)

/-- Claim C3 amended: for every panorama buffer and valid configuration,
every in-range output row maps to a `y_src` inside `[0, pano_height)`;
vertical out-of-range sampling coordinates never occur, whatever the
panorama's aspect ratio. -/
theorem c3_y_src_in_range (pano_h pano_w W H x y : ℕ)
    (hh : 0 < pano_h) (hH : 0 < H) (hy : y < H) :
    0 ≤ (buildCoordinateMap pano_h pano_w W H).y_map y x
  ∧ (buildCoordinateMap pano_h pano_w W H).y_map y x < pano_h :=
  ysrc_bounds pano_h H y hh hH hy

/-- Closed instance of `c3_y_src_in_range` at a panorama far from the
canonical 2:1 aspect ratio. -/
theorem c3_witness :
    0 ≤ (buildCoordinateMap 7 3 4 2).y_map 1 0
  ∧ (buildCoordinateMap 7 3 4 2).y_map 1 0 < 7 :=
  c3_y_src_in_range 7 3 4 2 0 1 (by norm_num) (by norm_num) (by norm_num)

/-- Claim C8: for every panorama and every valid configuration,
`pano_to_equirectangular` is total and returns a buffer of exactly
`output_w × output_h` pixels. -/
theorem c8_project_dimensions (pano : PixelBuffer) (W H : ℕ)
    (hW : 0 < W) (hH : 0 < H) :
    (pano_to_equirectangular pano W H).width = W
  ∧ (pano_to_equirectangular pano W H).height = H
  ∧ 0 < (pano_to_equirectangular pano W H).width
  ∧ 0 < (pano_to_equirectangular pano W H).height :=
  ⟨rfl, rfl, hW, hH⟩

/-- Closed instance of `c8_project_dimensions` at the default 2048×1024
configuration. -/
theorem c8_witness :
    (pano_to_equirectangular samplePixelBuffer 2048 1024).width = 2048
  ∧ (pano_to_equirectangular samplePixelBuffer 2048 1024).height = 1024
  ∧ 0 < (pano_to_equirectangular samplePixelBuffer 2048 1024).width
  ∧ 0 < (pano_to_equirectangular samplePixelBuffer 2048 1024).height :=
  c8_project_dimensions samplePixelBuffer 2048 1024 (by norm_num) (by norm_num)

/-- Claim C9: for a fixed output row, `x_src` is monotonically
non-decreasing in the output column, and for a fixed output column,
`y_src` is monotonically non-decreasing in the output row. -/
theorem c9_monotone (pano_h pano_w W H y x x1 x2 y1 y2 : ℕ)
    (hW : 0 < W) (hH : 0 < H) (hx : x1 ≤ x2) (hy : y1 ≤ y2) :
    (buildCoordinateMap pano_h pano_w W H).x_map y x1
      ≤ (buildCoordinateMap pano_h pano_w W H).x_map y x2
  ∧ (buildCoordinateMap pano_h pano_w W H).y_map y1 x
      ≤ (buildCoordinateMap pano_h pano_w W H).y_map y2 x := by
  have hW' : (0 : ℝ) < W := by exact_mod_cast hW
  have hH' : (0 : ℝ) < H := by exact_mod_cast hH
  constructor
  · show xsrc pano_w W x1 ≤ xsrc pano_w W x2
    rw [xsrc_eq pano_w W x1 hW.ne', xsrc_eq pano_w W x2 hW.ne']
    have hx' : (x1 : ℝ) ≤ x2 := by exact_mod_cast hx
    gcongr
  · show ysrc pano_h H y1 ≤ ysrc pano_h H y2
    rw [ysrc_eq pano_h H y1 hH.ne', ysrc_eq pano_h H y2 hH.ne']
    have hy' : (y1 : ℝ) ≤ y2 := by exact_mod_cast hy
    gcongr

/-- Closed instance of `c9_monotone`. -/
theorem c9_witness :
    (buildCoordinateMap 2 4 4 2).x_map 0 1 ≤ (buildCoordinateMap 2 4 4 2).x_map 0 3
  ∧ (buildCoordinateMap 2 4 4 2).y_map 0 1 ≤ (buildCoordinateMap 2 4 4 2).y_map 1 1 :=
  c9_monotone 2 4 4 2 0 1 1 3 0 1 (by norm_num) (by norm_num) (by norm_num)
    (by norm_num)

/-- Claim C10: the coordinate map is separable — `x_map[y, x]` does not
depend on the row `y` and `y_map[y, x]` does not depend on the column
`x`. -/
theorem c10_separable (pano_h pano_w W H x y y1 y2 x1 x2 : ℕ) :
    (buildCoordinateMap pano_h pano_w W H).x_map y1 x
      = (buildCoordinateMap pano_h pano_w W H).x_map y2 x
  ∧ (buildCoordinateMap pano_h pano_w W H).y_map y x1
      = (buildCoordinateMap pano_h pano_w W H).y_map y x2 :=
  ⟨rfl, rfl⟩

/-! ## Claims about the stitch orchestrator -/

/-- Claim C2 as stated is false for the HTTP service: at an engine where
SCANS succeeds and PANORAMA fails, `app.py`'s `stitch_images` invokes
only PANORAMA (it never attempts SCANS) and fails, although a first
SCANS attempt would have succeeded. -/
theorem c2_counterexample :
    (engineScansOk.run StitchMode.SCANS [samplePixelBuffer]).1 = 0
  ∧ (stitch_images_app engineScansOk [samplePixelBuffer]).2 = [StitchMode.PANORAMA]
  ∧ StitchMode.PANORAMA ≠ StitchMode.SCANS
  ∧ (stitch_images_app engineScansOk [samplePixelBuffer]).1
      = Except.error "Stitching failed with status 1" :=
  ⟨rfl, rfl, by decide, rfl⟩

/-- Claim C2 amended: for every image set, the batch tool's
`stitch_images` first attempts the engine in SCANS mode when that mode
is available in the running engine build (when it is unavailable, the
first attempt itself already runs in PANORAMA mode), returns the
engine's output whenever an attempt succeeds, and on a failed first
attempt retries exactly once in PANORAMA mode before giving up (the
retry requires the PANORAMA constant to be present in the build); the
HTTP service's `stitch_images` does not follow this policy — it performs
a single PANORAMA attempt, with no SCANS attempt and no retry. -/
theorem c2_retry_policy (e : Engine) (imgs : List PixelBuffer) :
    (stitch_images_app e imgs).2 = [StitchMode.PANORAMA]
  ∧ (e.scansAvailable = true →
        ((e.run StitchMode.SCANS imgs).1 = 0 →
            stitch_images_batch e imgs
              = (Except.ok (e.run StitchMode.SCANS imgs).2, [StitchMode.SCANS]))
      ∧ ((e.run StitchMode.SCANS imgs).1 ≠ 0 → e.hasPanorama = true →
            (stitch_images_batch e imgs).2
              = [StitchMode.SCANS, StitchMode.PANORAMA]
          ∧ ((e.run StitchMode.PANORAMA imgs).1 = 0 →
              (stitch_images_batch e imgs).1
                = Except.ok (e.run StitchMode.PANORAMA imgs).2)))
  ∧ (e.scansAvailable = false →
        ((e.run StitchMode.PANORAMA imgs).1 = 0 →
            stitch_images_batch e imgs
              = (Except.ok (e.run StitchMode.PANORAMA imgs).2,
                  [StitchMode.PANORAMA]))
      ∧ ((e.run StitchMode.PANORAMA imgs).1 ≠ 0 → e.hasPanorama = true →
            (stitch_images_batch e imgs).2
              = [StitchMode.PANORAMA, StitchMode.PANORAMA])) := by
  refine ⟨?_, fun hscans => ⟨?_, ?_⟩, fun hscans => ⟨?_, ?_⟩⟩
  · simp [stitch_images_app]
    split <;> rfl
  · intro h0
    simp [stitch_images_batch, hscans, h0]
  · intro hne hpano
    simp only [stitch_images_batch, hscans, if_true]
    rw [if_neg hne, if_pos hpano]
    constructor
    · split <;> rfl
    · intro h0
      rw [if_pos h0]
  · intro h0
    simp [stitch_images_batch, hscans, h0]
  · intro hne hpano
    simp only [stitch_images_batch, hscans, Bool.false_eq_true, if_false]
    rw [if_neg hne, if_pos hpano]
    split <;> rfl

/-- Closed instances of `c2_retry_policy`: a first-attempt SCANS
success returns its output with a single attempt; a SCANS failure is
retried exactly once in PANORAMA and that output returned; a build
without SCANS makes its first attempt in PANORAMA and retries once; the
HTTP service always performs the single PANORAMA attempt. -/
theorem c2_witness :
    stitch_images_batch engineScansOk [samplePixelBuffer]
      = (Except.ok samplePixelBuffer, [StitchMode.SCANS])
  ∧ (stitch_images_batch engineScansFails [samplePixelBuffer]).2
      = [StitchMode.SCANS, StitchMode.PANORAMA]
  ∧ (stitch_images_batch engineScansFails [samplePixelBuffer]).1
      = Except.ok samplePixelBuffer
  ∧ (stitch_images_batch engineNoScans [samplePixelBuffer]).2
      = [StitchMode.PANORAMA, StitchMode.PANORAMA]
  ∧ (stitch_images_app engineScansOk [samplePixelBuffer]).2
      = [StitchMode.PANORAMA] :=
  ⟨((c2_retry_policy engineScansOk [samplePixelBuffer]).2.1 rfl).1 rfl,
    (((c2_retry_policy engineScansFails [samplePixelBuffer]).2.1 rfl).2
      (by decide) rfl).1,
    (((c2_retry_policy engineScansFails [samplePixelBuffer]).2.1 rfl).2
      (by decide) rfl).2 rfl,
    ((c2_retry_policy engineNoScans [samplePixelBuffer]).2.2 rfl).2
      (by decide) rfl,
    (c2_retry_policy engineScansOk [samplePixelBuffer]).1⟩

/-- Claim C4 as stated is false for the HTTP service: at an engine where
both modes fail with status 1, `app.py`'s `stitch_images` raises the
generic message rather than the InsufficientOverlap classification. -/
theorem c4_counterexample :
    (engineBothFail.run StitchMode.SCANS [samplePixelBuffer]).1 = 1
  ∧ (engineBothFail.run StitchMode.PANORAMA [samplePixelBuffer]).1 = 1
  ∧ (stitch_images_app engineBothFail [samplePixelBuffer]).1
      = Except.error "Stitching failed with status 1"
  ∧ kindMessage (specClassify 1) = "Need more images or insufficient overlap"
  ∧ ("Stitching failed with status 1" : String)
      ≠ "Need more images or insufficient overlap" :=
  ⟨rfl, rfl, rfl, rfl, by decide⟩

/-- Claim C4 amended: when both engine modes fail, the batch tool's
`stitch_images` raises the error whose kind is the classification of the
PANORAMA attempt's status (1 ↦ InsufficientOverlap, 2 ↦
HomographyEstimationFailed, 3 ↦ CameraParameterAdjustmentFailed, other
↦ UnknownEngineFailure(code)), performs no retry beyond the two
attempts, and returns no pixel buffer; the HTTP service's
`stitch_images` likewise returns no buffer and performs no retry, but
raises the unclassified generic message for every status. -/
theorem c4_failure_classification (e : Engine) (imgs : List PixelBuffer)
    (hscans : e.scansAvailable = true) (hpano : e.hasPanorama = true)
    (h1 : (e.run StitchMode.SCANS imgs).1 ≠ 0)
    (h2 : (e.run StitchMode.PANORAMA imgs).1 ≠ 0) :
    (stitch_images_batch e imgs).1
      = Except.error (kindMessage (specClassify (e.run StitchMode.PANORAMA imgs).1))
  ∧ (stitch_images_batch e imgs).2 = [StitchMode.SCANS, StitchMode.PANORAMA]
  ∧ (∀ pb, (stitch_images_batch e imgs).1 ≠ Except.ok pb)
  ∧ (stitch_images_app e imgs).1
      = Except.error (statusMessage (e.run StitchMode.PANORAMA imgs).1)
  ∧ (∀ pb, (stitch_images_app e imgs).1 ≠ Except.ok pb) := by
  have hbatch : stitch_images_batch e imgs
      = (Except.error (stitchErrorMessage (e.run StitchMode.PANORAMA imgs).1),
          [StitchMode.SCANS, StitchMode.PANORAMA]) := by
    simp only [stitch_images_batch, hscans, if_true]
    rw [if_neg h1, if_pos hpano, if_neg h2]
  have happ : stitch_images_app e imgs
      = (Except.error (statusMessage (e.run StitchMode.PANORAMA imgs).1),
          [StitchMode.PANORAMA]) := by
    simp only [stitch_images_app]
    rw [if_neg h2]
  refine ⟨?_, ?_, ?_, ?_, ?_⟩
  · rw [hbatch, ← stitchErrorMessage_classified]
  · rw [hbatch]
  · intro pb; rw [hbatch]; simp
  · rw [happ]
  · intro pb; rw [happ]; simp

/-- Closed instance of `c4_failure_classification` at an engine failing
both modes with status 1. -/
theorem c4_witness :
    (stitch_images_batch engineBothFail [samplePixelBuffer]).1
      = Except.error (kindMessage (specClassify 1))
  ∧ (stitch_images_batch engineBothFail [samplePixelBuffer]).2
      = [StitchMode.SCANS, StitchMode.PANORAMA] :=
  ⟨(c4_failure_classification engineBothFail [samplePixelBuffer] rfl rfl
      (by decide) (by decide)).1,
    (c4_failure_classification engineBothFail [samplePixelBuffer] rfl rfl
      (by decide) (by decide)).2.1⟩

/-! ## Claims about the image source adapter -/

/-- Claim C5: loading from a nonexistent path fails with
DirectoryNotFound; a directory with fewer than 2 matching files fails
with InsufficientImages (carrying the matching-file count); per-file
decode failures are skipped, the call returning exactly the
successfully-decoded images in sorted filename order when at least two
decode, and failing with InsufficientImages (carrying the decoded count)
otherwise. -/
theorem c5_load_folder (fsys : String → Option (List DirEntry))
    (p : String) (entries : List DirEntry) :
    (fsys p = none →
        load_images_from_folder fsys p = .error (.directoryNotFound p))
  ∧ (fsys p = some entries →
        ((image_files entries).length < 2 →
            load_images_from_folder fsys p
              = .error (.insufficientFiles (image_files entries).length))
      ∧ (2 ≤ (image_files entries).length →
            ((image_files entries).filterMap (fun f => f.decoded)).length < 2 →
            load_images_from_folder fsys p
              = .error (.insufficientLoaded
                  ((image_files entries).filterMap (fun f => f.decoded)).length))
      ∧ (2 ≤ (image_files entries).length →
            2 ≤ ((image_files entries).filterMap (fun f => f.decoded)).length →
            load_images_from_folder fsys p
              = .ok ((image_files entries).filterMap (fun f => f.decoded)))) := by
  constructor
  · intro hnone
    simp [load_images_from_folder, hnone]
  · intro hsome
    refine ⟨?_, ?_, ?_⟩
    · intro hfew
      simp [load_images_from_folder, hsome, hfew]
    · intro hfiles hload
      simp only [load_images_from_folder, hsome]
      rw [if_neg (by omega), if_pos hload]
    · intro hfiles hload
      simp only [load_images_from_folder, hsome]
      rw [if_neg (by omega), if_neg (by omega)]

/-- Closed instance of `c5_load_folder`: the sample directory holds
three matching files of which two decode, so the call succeeds with the
two images (the undecodable `c.jpg` is skipped); a missing path fails
with DirectoryNotFound. -/
theorem c5_witness :
    load_images_from_folder sampleFs "Images"
      = .ok [samplePixelBuffer, samplePixelBuffer]
  ∧ load_images_from_folder sampleFs "Missing"
      = .error (.directoryNotFound "Missing") :=
  ⟨(c5_load_folder sampleFs "Images" sampleEntries).2 rfl |>.2.2
      (by decide) (by decide),
    (c5_load_folder sampleFs "Missing" sampleEntries).1 rfl⟩

/-- Claim C6 as stated is false: the regular file `a.Jpg` has a
mixed-case extension that equals `.jpg` under case-insensitive
comparison, yet the directory scan does not select it. -/
theorem c6_counterexample :
    matchesImageExt { name := "a.Jpg", isFile := true, decoded := none } = false
  ∧ pathSuffix "a.Jpg" = ".Jpg"
  ∧ (pathSuffix "a.Jpg").toList.map Char.toLower = ".jpg".toList := by
  refine ⟨by decide, by decide, by decide⟩

/-- Claim C6 amended: a regular-file entry is selected if and only if
its filename extension is exactly one of the six literal variants
`.jpg`, `.jpeg`, `.png`, `.JPG`, `.JPEG`, `.PNG` (all-lowercase or
all-uppercase, no other case mix), and the selected entries are
arranged in lexicographic filename order. -/
theorem c6_selection_and_order (entries : List DirEntry) :
    List.Sorted entryLe (image_files entries)
  ∧ (∀ f, f ∈ image_files entries ↔
        f ∈ entries ∧ f.isFile = true ∧ pathSuffix f.name ∈ image_extensions) := by
  constructor
  · exact @List.sorted_insertionSort DirEntry entryLe _
      ⟨fun a b => lexLe_total a.name.toList b.name.toList⟩
      ⟨fun a b c => lexLe_trans a.name.toList b.name.toList c.name.toList⟩
      (entries.filter matchesImageExt)
  · intro f
    rw [image_files, List.mem_insertionSort, List.mem_filter,
      matchesImageExt_iff]

/-! ## Claims about the pipeline driver -/

/-- Claim C7 as stated is false: a two-file upload with one undecodable
image is answered with HTTP 500 (the generic handler catches the
`ValueError`), not the claimed 400; likewise a missing directory in the
folder endpoint is answered with 500. -/
theorem c7_counterexample :
    stitch_360 sampleEncoder engineScansFails [some samplePixelBuffer, none]
      = .error (500, "Invalid image file")
  ∧ stitch_from_folder sampleEncoder engineScansFails (fun _ => none) "Images"
      = .error (500, "Folder Images does not exist")
  ∧ (500 : ℕ) ≠ 400 :=
  ⟨rfl, rfl, by decide⟩

/-- Claim C7 amended: any stage error short-circuits the remaining
stages; the HTTP driver answers 400 exactly when fewer than two files
are uploaded, and every other pipeline failure — undecodable image,
missing directory, stitching failure, encoding failure — with 500 whose
JSON detail is the failing stage's message; every error response
carries status 400 or 500, and on the folder endpoint always 500. -/
theorem c7_driver_status_mapping (enc : PixelBuffer → Except String Bytes)
    (e : Engine) (files : List (Option PixelBuffer))
    (fsys : String → Option (List DirEntry)) (p : String) :
    (files.length < 2 →
        stitch_360 enc e files = .error (400, "At least two images required"))
  ∧ (∀ msg, stitch_360 enc e files = .error (400, msg) →
        files.length < 2 ∧ msg = "At least two images required")
  ∧ (2 ≤ files.length → none ∈ files →
        stitch_360 enc e files = .error (500, "Invalid image file"))
  ∧ (2 ≤ files.length → none ∉ files →
        ∀ m, (stitch_images_app e files.reduceOption).1 = Except.error m →
        stitch_360 enc e files = .error (500, m))
  ∧ (2 ≤ files.length → none ∉ files →
        ∀ pano m, (stitch_images_app e files.reduceOption).1 = Except.ok pano →
        enc (pano_to_equirectangular pano 2048 1024) = Except.error m →
        stitch_360 enc e files = .error (500, m))
  ∧ (∀ code msg, stitch_360 enc e files = .error (code, msg) →
        code = 400 ∨ code = 500)
  ∧ (∀ err, load_images_from_folder fsys p = .error err →
        stitch_from_folder enc e fsys p = .error (500, loadErrorMessage err))
  ∧ (∀ imgs m, load_images_from_folder fsys p = .ok imgs →
        (stitch_images_app e imgs).1 = Except.error m →
        stitch_from_folder enc e fsys p = .error (500, m))
  ∧ (∀ imgs pano m, load_images_from_folder fsys p = .ok imgs →
        (stitch_images_app e imgs).1 = Except.ok pano →
        enc (pano_to_equirectangular pano 2048 1024) = Except.error m →
        stitch_from_folder enc e fsys p = .error (500, m))
  ∧ (∀ code msg, stitch_from_folder enc e fsys p = .error (code, msg) →
        code = 500) := by
  refine ⟨?_, ?_, ?_, ?_, ?_, ?_, ?_, ?_, ?_, ?_⟩
  · intro hfew
    simp [stitch_360, hfew]
  · intro msg h
    simp only [stitch_360] at h
    split at h
    · simp only [Except.error.injEq, Prod.mk.injEq] at h
      exact ⟨by assumption, h.2.symm⟩
    · split at h
      · exact absurd h (by simp)
      · simp only [Except.error.injEq, Prod.mk.injEq] at h
        omega
  · intro hlen hnone
    have hbody : stitch360Body enc e files = .error "Invalid image file" := by
      unfold stitch360Body
      rw [mapM_read_image_error hnone]
    simp only [stitch_360]
    rw [if_neg (by omega), hbody]
  · intro hlen hnone m hstitch
    have hbody : stitch360Body enc e files = .error m := by
      simp only [stitch360Body_of_images enc e files hnone, hstitch]
    simp only [stitch_360]
    rw [if_neg (by omega), hbody]
  · intro hlen hnone pano m hstitch henc
    have hbody : stitch360Body enc e files = .error m := by
      simp only [stitch360Body_of_images enc e files hnone, hstitch, henc]
    simp only [stitch_360]
    rw [if_neg (by omega), hbody]
  · intro code msg h
    simp only [stitch_360] at h
    split at h
    · simp only [Except.error.injEq, Prod.mk.injEq] at h
      left; exact h.1.symm
    · split at h
      · exact absurd h (by simp)
      · simp only [Except.error.injEq, Prod.mk.injEq] at h
        right; exact h.1.symm
  · intro err herr
    have hbody : stitchFromFolderBody enc e fsys p
        = .error (loadErrorMessage err) := by
      unfold stitchFromFolderBody
      rw [herr]
    simp only [stitch_from_folder]
    rw [hbody]
  · intro imgs m hload hstitch
    have hbody : stitchFromFolderBody enc e fsys p = .error m := by
      simp only [stitchFromFolderBody, hload, hstitch]
    simp only [stitch_from_folder]
    rw [hbody]
  · intro imgs pano m hload hstitch henc
    have hbody : stitchFromFolderBody enc e fsys p = .error m := by
      simp only [stitchFromFolderBody, hload, hstitch, henc]
    simp only [stitch_from_folder]
    rw [hbody]
  · intro code msg h
    simp only [stitch_from_folder] at h
    split at h
    · exact absurd h (by simp)
    · simp only [Except.error.injEq, Prod.mk.injEq] at h
      exact h.1.symm

/-- Closed instances of `c7_driver_status_mapping`: a single-file upload
is answered with 400; a stitching failure on two decodable uploads with
500 and the stitch message; an encoding failure with 500 and the
encoder's message; a missing directory with 500. -/
theorem c7_witness :
    stitch_360 sampleEncoder engineScansFails [some samplePixelBuffer]
      = .error (400, "At least two images required")
  ∧ stitch_360 sampleEncoder engineBothFail
      [some samplePixelBuffer, some samplePixelBuffer]
      = .error (500, "Stitching failed with status 1")
  ∧ stitch_360 failEncoder engineScansFails
      [some samplePixelBuffer, some samplePixelBuffer]
      = .error (500, "Encoding failed")
  ∧ stitch_from_folder sampleEncoder engineScansFails sampleFs "Absent"
      = .error (500, "Folder Absent does not exist") :=
  ⟨(c7_driver_status_mapping sampleEncoder engineScansFails
      [some samplePixelBuffer] sampleFs "Absent").1 (by decide),
    (c7_driver_status_mapping sampleEncoder engineBothFail
      [some samplePixelBuffer, some samplePixelBuffer] sampleFs "Absent").2.2.2.1
      (by decide) (by simp) "Stitching failed with status 1" rfl,
    (c7_driver_status_mapping failEncoder engineScansFails
      [some samplePixelBuffer, some samplePixelBuffer] sampleFs
      "Absent").2.2.2.2.1
      (by decide) (by simp) samplePixelBuffer "Encoding failed" rfl rfl,
    (c7_driver_status_mapping sampleEncoder engineScansFails
      [some samplePixelBuffer] sampleFs "Absent").2.2.2.2.2.2.1
      (LoadError.directoryNotFound "Absent") rfl⟩

end PanoStitch
